import Mathlib

/-!
Shallow embedding of `tools/firmware-utils/src/ptgen.c` (partition table
generator): the layout planner shared by the legacy (MBR) and GPT encoders,
the CHS codec, the GUID codec, the GPT header/entry construction with its
CRC32 protocol, and the partition-count gate from `main`.

Machine arithmetic is modelled over `Nat`; narrowing casts of the C code
(stores into `uint8_t`/`uint32_t` fields) are rendered as explicit `% 2^w`.
-/

namespace Ptgen

/-- Caller configuration, mirroring the globals `heads`, `sectors`,
`kb_align`, `ignore_null_sized_partition` and `active` of ptgen.c. -/
structure Cfg where
  heads : Nat
  sectors : Nat
  kb_align : Nat
  ignore_null : Bool
  active : Nat
  deriving DecidableEq

/-- `struct partinfo`: one partition request (size in KBytes, MBR type byte). -/
structure Partinfo where
  size : Nat
  type : Nat
  deriving DecidableEq

/-- `round_to_cyl`: round the sector number up to the next cylinder
(`sect + cyl_size - (sect % cyl_size)`, with `cyl_size = heads * sectors`). -/
def round_to_cyl (cfg : Cfg) (sect : Nat) : Nat :=
  sect + cfg.heads * cfg.sectors - sect % (cfg.heads * cfg.sectors)

/-- `round_to_kb`: round the sector number up to the `kb_align` boundary
(`((sect - 1) / kb_align + 1) * kb_align`). -/
def round_to_kb (cfg : Cfg) (sect : Nat) : Nat :=
  ((sect - 1) / cfg.kb_align + 1) * cfg.kb_align

/-- `to_chs`: convert a linear sector number into the packed 3-byte CHS
field of a legacy partition entry. -/
def to_chs (cfg : Cfg) (sect : Nat) : List Nat :=
  let s := sect % cfg.sectors + 1
  let h := sect / cfg.sectors % cfg.heads
  let c := sect / cfg.sectors / cfg.heads
  [h % 256, (s ||| (c >>> 2 &&& 0xC0)) % 256, c % 256]

/-- One planned partition: the original request index `idx`, the request
itself, and the computed start sector and sector length. -/
structure PlanEntry where
  idx : Nat
  part : Partinfo
  start : Nat
  len : Nat
  deriving DecidableEq

/-- The start sector of a retained request when the cursor is `sect`:
`start = sect + sectors`, rounded up to the KB boundary when
`kb_align != 0`. -/
def planStart (cfg : Cfg) (sect : Nat) : Nat :=
  if cfg.kb_align ≠ 0 then round_to_kb cfg (sect + cfg.sectors) else sect + cfg.sectors

/-- The cursor after a retained request of `size` KBytes starting at
`start`: `sect = start + size * 2`, rounded up to the next cylinder when
`kb_align == 0`. -/
def planEnd (cfg : Cfg) (start size : Nat) : Nat :=
  if cfg.kb_align = 0 then round_to_cyl cfg (start + size * 2) else start + size * 2

/-- The planning loop shared verbatim by `gen_ptable` and `gen_gptable`:
walk the requests keeping a running cursor `sect`; a zero-size request is
skipped when `ignore_null_sized_partition` is set and otherwise aborts with
the request's index; a retained request occupies `planStart` through
`planEnd`.  Returns the planned entries together with the final cursor
value. -/
def planLoop (cfg : Cfg) : List Partinfo → Nat → Nat → Except Nat (List PlanEntry × Nat)
  | [], sect, _ => .ok ([], sect)
  | p :: rest, sect, i =>
    if p.size = 0 then
      if cfg.ignore_null then planLoop cfg rest sect (i + 1)
      else .error i
    else
      match planLoop cfg rest (planEnd cfg (planStart cfg sect) p.size) (i + 1) with
      | .error e => .error e
      | .ok (es, fs) =>
        .ok (⟨i, p, planStart cfg sect,
              planEnd cfg (planStart cfg sect) p.size - planStart cfg sect⟩ :: es, fs)

/-- `struct pte`: a 16-byte legacy partition table entry. -/
structure Pte where
  active : Nat
  chs_start : List Nat
  type : Nat
  chs_end : List Nat
  start : Nat
  length : Nat
  deriving DecidableEq

/-- The all-zero legacy entry, as left by `memset(pte, 0, ...)`. -/
def zeroPte : Pte :=
  ⟨0, [0, 0, 0], 0, [0, 0, 0], 0, 0⟩

/-- The legacy entry `gen_ptable` stores at slot `e.idx`: the bootable flag
compares the 1-based original index with `active`, and the 32-bit LBA
fields truncate as the C stores into `uint32_t`. -/
def mkPte (cfg : Cfg) (e : PlanEntry) : Pte :=
  { active := if e.idx + 1 = cfg.active then 0x80 else 0
    chs_start := to_chs cfg e.start
    type := e.part.type % 256
    chs_end := to_chs cfg (e.start + e.len - 1)
    start := e.start % 2 ^ 32
    length := e.len % 2 ^ 32 }

/-- The legacy table as a map from slot index to entry: slot `k` holds the
entry planned for original request index `k`, or stays zeroed. -/
def pteTable (cfg : Cfg) (es : List PlanEntry) : Nat → Pte := fun k =>
  match es.find? (fun e => e.idx = k) with
  | some e => mkPte cfg e
  | none => zeroPte

/-- `gen_ptable`, up to the point where the table bytes are handed to the
sink: the size-checking planning loop runs in full before `open()` is ever
called, so an invalid size aborts with the failing index and no output
(not even a truncation of the sink) is produced. -/
def gen_ptable (cfg : Cfg) (parts : List Partinfo) : Except Nat (Nat → Pte) :=
  match planLoop cfg parts 0 0 with
  | .error i => .error i
  | .ok (es, _) => .ok (pteTable cfg es)

/-- The per-partition report lines both encoders print: for each retained
request in order, its start byte offset `start * 512` and its byte length
`len * 512`. -/
def plan_lines (es : List PlanEntry) : List Nat :=
  (es.map (fun e => [e.start * 512, e.len * 512])).flatten

/-- The observable stdout of the planner (`printf` lines of `gen_ptable`
and `gen_gptable`), or the index of the offending zero-size request. -/
def ptable_lines (cfg : Cfg) (parts : List Partinfo) : Except Nat (List Nat) :=
  (planLoop cfg parts 0 0).map (fun r => plan_lines r.1)

/-- The geometry of the C1 scenario: `heads=4, sectors=32`, cylinder
alignment, no skip-mode, default active slot. -/
def cfgC1 : Cfg :=
  ⟨4, 32, 0, false, 1⟩

/-! GPT encoder: headers, entries, serialization and the CRC32 protocol. -/

/-- Little-endian byte serialization of a 32-bit field. -/
def le32 (n : Nat) : List Nat :=
  [n % 256, n / 256 % 256, n / 256 ^ 2 % 256, n / 256 ^ 3 % 256]

/-- Little-endian byte serialization of a 64-bit field. -/
def le64 (n : Nat) : List Nat :=
  [n % 256, n / 256 % 256, n / 256 ^ 2 % 256, n / 256 ^ 3 % 256,
   n / 256 ^ 4 % 256, n / 256 ^ 5 % 256, n / 256 ^ 6 % 256, n / 256 ^ 7 % 256]

/-- `GUID_INIT`/`UUID_LE`: the 16 on-disk bytes of a GUID given its three
leading little-endian groups and its trailing 8 raw bytes. -/
def guidInit (a b c : Nat) (d : List Nat) : List Nat :=
  le32 a ++ [b % 256, b / 256 % 256] ++ [c % 256, c / 256 % 256] ++ d

/-- `GPT_PARTITION_ESP`: the EFI System Partition type GUID. -/
def GPT_PARTITION_ESP : List Nat :=
  guidInit 0xC12A7328 0xF81F 0x11d2 [0xBA, 0x4B, 0x00, 0xA0, 0xC9, 0x3E, 0xC9, 0x3B]

/-- `GPT_PARTITION_DATA`: the basic-data partition type GUID. -/
def GPT_PARTITION_DATA : List Nat :=
  guidInit 0xEBD0A0A2 0xB9E5 0x4433 [0x87, 0xC0, 0x68, 0xB6, 0xB7, 0x26, 0x99, 0xC7]

/-- `GPT_PARTITION_BIOS`: the BIOS-boot partition type GUID. -/
def GPT_PARTITION_BIOS : List Nat :=
  guidInit 0x21686148 0x6449 0x6E6F [0x74, 0x4E, 0x65, 0x65, 0x64, 0x45, 0x46, 0x49]

/-- `guid.b[15] += n` on a copy of the disk GUID (the per-partition GUID
derivation; the `uint8_t` store wraps modulo 256). -/
def guidAddLast (g : List Nat) (n : Nat) : List Nat :=
  g.take 15 ++ [(g.getD 15 0 + n) % 256]

/-- `struct gpte`: one 128-byte GPT entry (type GUID, partition GUID,
first and last LBA, attributes, UTF-16 name).  The C field `end` is a Lean
keyword and is rendered `last`. -/
structure Gpte where
  type : List Nat
  guid : List Nat
  start : Nat
  last : Nat
  attr : Nat
  name : List Nat
  deriving DecidableEq

/-- The all-zero GPT entry, as left by `memset(gpte, 0, ...)`. -/
def zeroGpte : Gpte :=
  ⟨List.replicate 16 0, List.replicate 16 0, 0, 0, 0, List.replicate 36 0⟩

/-- The GPT entry `gen_gptable` stores at slot `e.idx`: ESP type when the
request's type byte is `0xEF` or its 1-based original index equals
`active`, basic-data otherwise; partition GUID derived from the disk GUID
by adding `idx + 1` to its last byte; `end` LBA is the last sector of the
planned extent. -/
def mkGpte (cfg : Cfg) (guid : List Nat) (e : PlanEntry) : Gpte :=
  { type := if e.part.type = 0xEF ∨ e.idx + 1 = cfg.active
            then GPT_PARTITION_ESP else GPT_PARTITION_DATA
    guid := guidAddLast guid (e.idx + 1)
    start := e.start
    last := e.start + e.len - 1
    attr := 0
    name := List.replicate 36 0 }

/-- The synthetic BIOS-boot entry written into slot 127 after the loop:
it starts right after the primary entry array (LBA `128*128/512 + 2 = 34`)
and ends at `(kb_align ? round_to_kb(sectors) : sectors) - 1`. -/
def biosGpte (cfg : Cfg) (guid : List Nat) : Gpte :=
  { type := GPT_PARTITION_BIOS
    guid := guidAddLast guid 128
    start := 128 * 128 / 512 + 2
    last := (if cfg.kb_align ≠ 0 then round_to_kb cfg cfg.sectors else cfg.sectors) - 1
    attr := 0
    name := List.replicate 36 0 }

/-- The 128-slot GPT entry array as a map from slot index to entry:
slot 127 always holds the synthetic BIOS-boot entry (it is written after
the loop, overwriting whatever the loop put there); any other slot holds
the entry planned for its original request index, or stays zero-filled. -/
def gpteTable (cfg : Cfg) (guid : List Nat) (es : List PlanEntry) : Nat → Gpte := fun k =>
  if k = 127 then biosGpte cfg guid
  else
    match es.find? (fun e => e.idx = k) with
    | some e => mkGpte cfg guid e
    | none => zeroGpte

/-- `struct gpth`: the 92-byte GPT header. -/
structure Gpth where
  signature : Nat
  revision : Nat
  size : Nat
  crc32 : Nat
  reserved : Nat
  self : Nat
  alternate : Nat
  first_usable : Nat
  last_usable : Nat
  disk_guid : List Nat
  first_entry : Nat
  entry_num : Nat
  entry_size : Nat
  entry_crc32 : Nat
  deriving DecidableEq

/-- The 92 bytes of a GPT header in on-disk (packed, little-endian) order. -/
def gpthBytes (h : Gpth) : List Nat :=
  le64 h.signature ++ (le32 h.revision ++ (le32 h.size ++ (le32 h.crc32 ++
  (le32 h.reserved ++ (le64 h.self ++ (le64 h.alternate ++ (le64 h.first_usable ++
  (le64 h.last_usable ++ (h.disk_guid ++ (le64 h.first_entry ++ (le32 h.entry_num ++
  (le32 h.entry_size ++ le32 h.entry_crc32))))))))))))

/-- A header byte image with its CRC32 field (bytes 16..19) zeroed. -/
def zeroCrcField (bs : List Nat) : List Nat :=
  bs.take 16 ++ ([0, 0, 0, 0] ++ bs.drop 20)

/-- The 128 bytes of a GPT entry in on-disk order (name as little-endian
UTF-16 code units). -/
def gpteBytes (e : Gpte) : List Nat :=
  e.type ++ e.guid ++ le64 e.start ++ le64 e.last ++ le64 e.attr ++
  (e.name.map (fun w => [w % 256, w / 256 % 256])).flatten

/-- The `128 * 128`-byte entry array image. -/
def gptEntriesBytes (entries : Nat → Gpte) : List Nat :=
  ((List.range 128).map (fun k => gpteBytes (entries k))).flatten

/-- Modelled from the spec: `cyg_crc32_accumulate` of `cyg_crc.h` is not in
the source tree; per spec section 4.3 it is the standard reflected CRC-32
(polynomial `0xEDB88320`), processing one input bit per step. -/
def crc32_bits : Nat → Nat → Nat
  | 0, crc => crc
  | k + 1, crc =>
    crc32_bits k (if crc % 2 = 1 then crc / 2 ^^^ 0xEDB88320 else crc / 2)

/-- Modelled from the spec: byte-sequence accumulation
`crc32(seed, data)` of the reflected CRC-32. -/
def cyg_crc32_accumulate (seed : Nat) (data : List Nat) : Nat :=
  data.foldl (fun crc b => crc32_bits 8 (crc ^^^ b % 256)) (seed % 2 ^ 32)

/-- `gpt_crc32`: `cyg_crc32_accumulate(~0, buf, len) ^ ~0`. -/
def gpt_crc32 (data : List Nat) : Nat :=
  cyg_crc32_accumulate (2 ^ 32 - 1) data ^^^ (2 ^ 32 - 1)

/-- The protective MBR entry of the GPT image: type `0xEE`, spanning
LBA 1 through the backup-header LBA (32-bit truncated length store).
The C leaves `pte.active` uninitialized; it is rendered as 0 here and no
claim concerns it. -/
def protectivePte (cfg : Cfg) (endLba : Nat) : Pte :=
  { active := 0
    chs_start := to_chs cfg 1
    type := 0xEE
    chs_end := to_chs cfg endLba
    start := 1
    length := endLba % 2 ^ 32 }

/-- Everything `gen_gptable` assembles before writing: the entry array,
the protective MBR entry, the primary and backup headers, and the last
LBA of the device. -/
structure GptOut where
  entries : Nat → Gpte
  protective : Pte
  primary : Gpth
  backup : Gpth
  endLba : Nat

/-- Assembly of the GPT structures from the planned entries and the final
cursor, in the C's order of operations: the header is populated with its
`crc32` field zero, `entry_crc32` is computed over the final entry-array
image, then `crc32` over the 92 header bytes; the backup header swaps
`self`/`alternate`, repoints `first_entry` at the backup array, zeroes
`crc32` and recomputes it. -/
def mkGptOut (cfg : Cfg) (guid : List Nat) (es : List PlanEntry) (sect : Nat) : GptOut :=
  let entries := gpteTable cfg guid es
  let endLba := sect + cfg.sectors - 1
  let h0 : Gpth :=
    { signature := 0x5452415020494645
      revision := 0x00010000
      size := 92
      crc32 := 0
      reserved := 0
      self := 1
      alternate := endLba
      first_usable := 128 * 128 / 512 + 2
      last_usable := endLba - 128 * 128 / 512 - 1
      disk_guid := guid
      first_entry := 2
      entry_num := 128
      entry_size := 128
      entry_crc32 := gpt_crc32 (gptEntriesBytes entries) }
  let primary : Gpth := { h0 with crc32 := gpt_crc32 (gpthBytes h0) }
  let b0 : Gpth :=
    { primary with self := endLba, alternate := 1, first_entry := endLba - 128 * 128 / 512,
                   crc32 := 0 }
  let backup : Gpth := { b0 with crc32 := gpt_crc32 (gpthBytes b0) }
  { entries := entries
    protective := protectivePte cfg endLba
    primary := primary
    backup := backup
    endLba := endLba }

/-- `gen_gptable`, up to the point where the structures are handed to the
sink: as in `gen_ptable`, the size-checking planning loop runs in full
before `open()` is called, so an invalid size aborts with the failing
index and nothing is written. -/
def gen_gptable (cfg : Cfg) (guid : List Nat) (parts : List Partinfo) : Except Nat GptOut :=
  match planLoop cfg parts 0 0 with
  | .error i => .error i
  | .ok (es, sect) => .ok (mkGptOut cfg guid es sect)

/-! GUID codec: `guid_parse` (via `strtol` on 2-character buffers) and
`guid_print`. -/

/-- C `isspace` on the characters `strtol` skips. -/
def isSpaceChar (c : Char) : Bool :=
  c = ' ' || c = '\t' || c = '\n' || c = '\r' || c.toNat = 11 || c.toNat = 12

/-- The value of a hexadecimal digit character, if it is one. -/
def hexDigitVal (c : Char) : Option Nat :=
  if '0' ≤ c ∧ c ≤ '9' then some (c.toNat - 48)
  else if 'A' ≤ c ∧ c ≤ 'F' then some (c.toNat - 55)
  else if 'a' ≤ c ∧ c ≤ 'f' then some (c.toNat - 87)
  else none

/-- `strtol` digit accumulation in base 16: consume hex digits until the
first non-digit; the value of an empty digit run is the accumulator. -/
def strtolDigits : List Char → Nat → Nat
  | [], acc => acc
  | c :: t, acc =>
    match hexDigitVal c with
    | some v => strtolDigits t (acc * 16 + v)
    | none => acc

/-- `strtol` in base 16 after sign handling: an optional `0x`/`0X` prefix
is skipped (its presence never changes the value). -/
def strtolAfterSign : List Char → Nat
  | '0' :: x :: t =>
    if x = 'x' ∨ x = 'X' then strtolDigits t 0 else strtolDigits ('0' :: x :: t) 0
  | t => strtolDigits t 0

/-- `strtol(buf, 0, 16)`: skip leading whitespace, then an optional sign,
then parse hexadecimal digits (0 when there are none). -/
def strtol16 (s : List Char) : Int :=
  match s.dropWhile isSpaceChar with
  | '-' :: t => -(Int.ofNat (strtolAfterSign t))
  | '+' :: t => Int.ofNat (strtolAfterSign t)
  | t => Int.ofNat (strtolAfterSign t)

/-- `guid->b[i] = strtol(b, 0, 16)` on the 2-character buffer `b`: the
`long` value is truncated by the `uint8_t` store. -/
def byteOfChars (c1 c2 : Char) : Nat :=
  ((strtol16 [c1, c2]).emod 256).toNat

/-- The parsing loop of `guid_parse`: for each of 16 bytes, skip a single
hyphen if present, fail when the string is exhausted (`*p == '\0'`),
otherwise convert the next two characters with `strtol` and advance by
two. -/
def parseLoop : Nat → List Char → Option (List Nat)
  | 0, _ => some []
  | n + 1, s =>
    let t := if s.head? = some '-' then s.tail else s
    match t with
    | [] => none
    | [c1] => (parseLoop n []).map (fun r => byteOfChars c1 (Char.ofNat 0) :: r)
    | c1 :: c2 :: rest => (parseLoop n rest).map (fun r => byteOfChars c1 c2 :: r)

/-- The in-place byte swaps `guid_parse` applies at the end: the first
4-byte group is reversed and the next two 2-byte groups are swapped
(mixed-endian on-disk GUID form). -/
def byteswapGuid : List Nat → List Nat
  | [b0, b1, b2, b3, b4, b5, b6, b7, b8, b9, b10, b11, b12, b13, b14, b15] =>
    [b3, b2, b1, b0, b5, b4, b7, b6, b8, b9, b10, b11, b12, b13, b14, b15]
  | l => l

/-- `guid_parse`: reject the input when `strnlen(buf, 36) != 36` (that is,
exactly when it is shorter than 36 characters), then run the 16-byte
parsing loop and apply the endianness swaps. -/
def guid_parse (s : List Char) : Option (List Nat) :=
  if min s.length 36 ≠ 36 then none
  else (parseLoop 16 s).map byteswapGuid

/-- An uppercase hexadecimal digit character for a value below 16. -/
def upperHexChar (d : Nat) : Char :=
  if d < 10 then Char.ofNat (48 + d) else Char.ofNat (55 + d)

/-- `%02X` of one byte. -/
def hexPairUpper (n : Nat) : List Char :=
  [upperHexChar (n / 16 % 16), upperHexChar (n % 16)]

/-- `guid_print`: the 36 characters printed for a 16-byte on-disk GUID,
undoing the mixed-endian storage (`b[3] b[2] b[1] b[0] - b[5] b[4] -
b[7] b[6] - b[8] b[9] - b[10] .. b[15]`). -/
def guid_print (g : List Nat) : List Char :=
  match g with
  | [b0, b1, b2, b3, b4, b5, b6, b7, b8, b9, b10, b11, b12, b13, b14, b15] =>
    hexPairUpper b3 ++ hexPairUpper b2 ++ hexPairUpper b1 ++ hexPairUpper b0 ++
    '-' :: (hexPairUpper b5 ++ hexPairUpper b4) ++
    '-' :: (hexPairUpper b7 ++ hexPairUpper b6) ++
    '-' :: (hexPairUpper b8 ++ hexPairUpper b9) ++
    '-' :: (hexPairUpper b10 ++ hexPairUpper b11 ++ hexPairUpper b12 ++
            hexPairUpper b13 ++ hexPairUpper b14 ++ hexPairUpper b15)
  | _ => []

/-- The hexadecimal digit characters of a canonical GUID string: the ten
decimal digits and the first six letters of either case. -/
def hexChars : List Char :=
  (List.range 10).map (fun i => Char.ofNat (48 + i)) ++
  ((List.range 6).map (fun i => Char.ofNat (97 + i)) ++
   (List.range 6).map (fun i => Char.ofNat (65 + i)))

/-! The partition-count gate of `main`. -/

/-- The guard on `-p` in `main`: a further request is rejected ("Too many
partitions") when `part > GPT_ENTRY_NUM - 1`, or in legacy mode when
`part > 3`, where `part` counts the requests accepted so far. -/
def accept_partition (use_gpt : Bool) (part : Nat) : Bool :=
  !(part > 128 - 1 || (use_gpt == false && part > 3))

/-! Concrete instances used to exercise the theorems. -/

/-- An all-zero disk GUID, for concrete instances. -/
def guid0 : List Nat :=
  List.replicate 16 0

/-- The geometry of `cfgC1` with skip-null-sized mode enabled. -/
def cfgSkip : Cfg :=
  ⟨4, 32, 0, true, 1⟩

/-- Skip-mode geometry with active slot 2. -/
def cfgSkip2 : Cfg :=
  ⟨4, 32, 0, true, 2⟩

/-- 128 GPT requests, the last of size zero. -/
def partsRep : List Partinfo :=
  List.replicate 127 ⟨1, 0x83⟩ ++ [⟨0, 0x83⟩]

/-- The plan of a single 1 KB request under `cfgC1`. -/
def planOne : List PlanEntry :=
  [⟨0, ⟨1, 0x83⟩, 32, 96⟩]

/-- The GPT structures for a single 1 KB request under `cfgC1`. -/
def gptOutOne : GptOut :=
  mkGptOut cfgC1 guid0 planOne 128

/-- The GPT structures for an empty request list under `cfgC1`. -/
def gptOutNil : GptOut :=
  mkGptOut cfgC1 guid0 [] 0

/-- The plan of `[0 KB, 1 KB]` under `cfgSkip2` (first request skipped). -/
def planSkip : List PlanEntry :=
  [⟨1, ⟨1, 0x83⟩, 32, 96⟩]

/-- C1 (counterexample): in legacy mode with `heads=4, sectors=32`,
cylinder alignment and a single request of `size_kb=64`, the planner does
NOT report the byte-length `65536` claimed: the end sector `32 + 128 = 160`
is rounded up to the cylinder boundary `256`, so the length is
`224 * 512 = 114688` bytes, and the output lines are `[16384, 114688]`,
not `[16384, 65536]`. -/
theorem legacy_single64k_not_65536 :
    ptable_lines cfgC1 [⟨64, 0x83⟩] = .ok [16384, 114688] ∧
    (Except.ok [16384, 114688] : Except Nat (List Nat)) ≠ .ok [16384, 65536] :=
  ⟨rfl, by simp⟩

/-- C1 (amended): in legacy mode with `heads=4, sectors=32`, cylinder
alignment and a single request of `size_kb=64`, the planner reports a
start byte offset of `16384 = 32*512` and a length byte value of
`114688 = 224*512` (the end sector `160` is rounded up to the next
cylinder multiple `256`, each cylinder being `128` sectors). -/
theorem legacy_single64k_lines :
    ptable_lines cfgC1 [⟨64, 0x83⟩] = .ok [16384, 114688] :=
  rfl

/-- C7 (counterexample): in GPT mode the 128th request (127 already
accepted) is ACCEPTED by the guard of `main`, although the claim says
accepting it would exceed the stated limit of 127 requests; the guard
only rejects once 128 are already accepted. -/
theorem accept_gpt_128th_accepted :
    accept_partition true 127 = true ∧ accept_partition true 128 = false := by
  decide

/-- C7 (amended): accepting a partition request fails exactly when the
number of requests already accepted has reached 4 in legacy mode or 128
in GPT mode — so at most 4 requests are retained in legacy mode and at
most 128 in GPT mode (the 128th occupying the slot later overwritten by
the synthetic BIOS-boot entry). -/
theorem accept_partition_limit (g : Bool) (n : Nat) :
    accept_partition g n = false ↔ (128 ≤ n ∨ (g = false ∧ 4 ≤ n)) := by
  cases g <;> simp [accept_partition] <;> omega

/-- C5 (counterexample): `guid_parse` accepts a 36-character input made
entirely of the non-hexadecimal character `Z` (each `strtol` call simply
yields 0), although the claim says any input containing a non-hex digit
in a digit position is rejected. -/
theorem guid_parse_accepts_nonhex :
    guid_parse (List.replicate 36 'Z') = some (List.replicate 16 0) := by
  decide

/-- C5 (amended): `guid_parse` rejects every input shorter than 36
characters (the `strnlen` guard); it performs no hex-digit validation —
a 2-character group with no leading hex digit parses as 0 via `strtol` —
and it also accepts inputs longer than 36 characters. -/
theorem guid_parse_rejects_short (s : List Char) (h : s.length < 36) :
    guid_parse s = none := by
  unfold guid_parse
  rw [if_pos]
  omega

/-- Witness for `guid_parse_rejects_short` at the empty string. -/
theorem guid_parse_rejects_short_witness :
    ([] : List Char).length < 36 ∧ guid_parse [] = none :=
  ⟨by decide, guid_parse_rejects_short [] (by decide)⟩

/-- C4 (counterexample): with `heads=4, sectors=32`, cylinder alignment
and one 1 KB request, the device's final reserved area starts after the
last usable LBA `126`, but entry 127's end LBA is `31` (the end of the
first track), not `126` as the claim requires. -/
theorem gpte127_end_not_last_usable :
    (gen_gptable cfgC1 guid0 [⟨1, 0x83⟩]).toOption.map
        (fun o => ((o.entries 127).last, o.primary.last_usable)) = some (31, 126) ∧
    (31 : Nat) ≠ 126 :=
  ⟨rfl, by decide⟩

/-- C4 (amended): in every GPT image, entry 127 is a synthetic BIOS-boot
entry (type = BIOS-boot GUID) whose start LBA is the first LBA after the
primary entry-array region (LBA `128*128/512 + 2 = 34`) and whose end LBA
is `(kb_align ? round_to_kb(sectors) : sectors) - 1` — the last sector of
the (aligned) first track, just before the earliest possible partition
start, not the last sector before the device's final reserved area. -/
theorem gpte127_bios_entry (cfg : Cfg) (guid : List Nat) (parts : List Partinfo)
    (out : GptOut) (h : gen_gptable cfg guid parts = .ok out) :
    (out.entries 127).type = GPT_PARTITION_BIOS ∧
    (out.entries 127).start = 34 ∧
    (out.entries 127).last =
      (if cfg.kb_align ≠ 0 then round_to_kb cfg cfg.sectors else cfg.sectors) - 1 := by
  unfold gen_gptable at h
  cases hp : planLoop cfg parts 0 0 with
  | error i => rw [hp] at h; cases h
  | ok r =>
    rw [hp] at h
    cases h
    exact ⟨rfl, rfl, rfl⟩

/-- Witness for `gpte127_bios_entry` on a single 1 KB request. -/
theorem gpte127_bios_entry_witness :
    gen_gptable cfgC1 guid0 [⟨1, 0x83⟩] = .ok gptOutOne ∧
    ((gptOutOne.entries 127).type = GPT_PARTITION_BIOS ∧
     (gptOutOne.entries 127).start = 34 ∧
     (gptOutOne.entries 127).last =
       (if cfgC1.kb_align ≠ 0 then round_to_kb cfgC1 cfgC1.sectors else cfgC1.sectors) - 1) :=
  ⟨rfl, gpte127_bios_entry cfgC1 guid0 [⟨1, 0x83⟩] gptOutOne rfl⟩

/-- Zeroing the CRC32 field bytes (offsets 16..19) of a serialized GPT
header is the same as serializing the header with its `crc32` field 0. -/
theorem zeroCrc_gpthBytes (sig rev sz c res slf alt fu lu : Nat) (dg : List Nat)
    (fe en esz ec : Nat) :
    zeroCrcField (gpthBytes (Gpth.mk sig rev sz c res slf alt fu lu dg fe en esz ec)) =
      gpthBytes (Gpth.mk sig rev sz 0 res slf alt fu lu dg fe en esz ec) := by
  simp [zeroCrcField, gpthBytes, le64, le32]

/-- C3: in every GPT image, the stored header CRC32 field equals the
CRC32 (`cyg_crc32_accumulate(~0, buf, len) ^ ~0`) of the 92 header bytes
with the CRC32 field itself zeroed, and the stored entry-array CRC32
field equals the CRC32 of the `128*128`-byte entry array as written; the
same holds for the backup header (whose entry_crc32 field is carried over
unchanged, the backup array being byte-identical to the primary one). -/
theorem gpt_crc_protocol (cfg : Cfg) (guid : List Nat) (parts : List Partinfo)
    (out : GptOut) (h : gen_gptable cfg guid parts = .ok out) :
    out.primary.crc32 = gpt_crc32 (zeroCrcField (gpthBytes out.primary)) ∧
    out.primary.entry_crc32 = gpt_crc32 (gptEntriesBytes out.entries) ∧
    out.backup.crc32 = gpt_crc32 (zeroCrcField (gpthBytes out.backup)) ∧
    out.backup.entry_crc32 = gpt_crc32 (gptEntriesBytes out.entries) := by
  unfold gen_gptable at h
  cases hp : planLoop cfg parts 0 0 with
  | error i => rw [hp] at h; cases h
  | ok r =>
    obtain ⟨es, sect⟩ := r
    rw [hp] at h
    cases h
    refine ⟨?_, rfl, ?_, rfl⟩
    · simp only [mkGptOut]
      rw [zeroCrc_gpthBytes]
    · simp only [mkGptOut]
      rw [zeroCrc_gpthBytes]

/-- When request `j` is the first zero-size request and skip-mode is off,
the planning loop aborts with index `i + j` from any cursor. -/
theorem planLoop_first_zero (cfg : Cfg) (hskip : cfg.ignore_null = false) :
    ∀ (parts : List Partinfo) (j : Nat) (p : Partinfo) (sect i : Nat),
      parts[j]? = some p → p.size = 0 →
      (∀ k q, k < j → parts[k]? = some q → 0 < q.size) →
      planLoop cfg parts sect i = .error (i + j) := by
  intro parts
  induction parts with
  | nil => intro j p sect i hj; simp at hj
  | cons a rest ih =>
    intro j p sect i hj hz hfirst
    cases j with
    | zero =>
      simp only [List.getElem?_cons_zero] at hj
      cases hj
      simp only [planLoop]
      rw [if_pos hz, if_neg (by simp [hskip]), Nat.add_zero]
    | succ j2 =>
      have ha : 0 < a.size := hfirst 0 a (Nat.succ_pos j2) (by simp)
      simp only [planLoop]
      rw [if_neg (by omega)]
      have hr : planLoop cfg rest (planEnd cfg (planStart cfg sect) a.size) (i + 1)
          = .error (i + 1 + j2) :=
        ih j2 p _ (i + 1) (by simpa using hj) hz
          (fun k q hk hkq => hfirst (k + 1) q (by omega) (by simpa using hkq))
      rw [hr]
      exact congrArg Except.error (by omega)

/-- C8: if request `j` is the first zero-size request and skip-null-sized
mode is disabled, both encoders fail reporting index `j`; the failure is
raised by the planning loop, which runs in full before either encoder
calls `open()`, so no byte reaches the output sink and the sink is not
even opened or truncated. -/
theorem zero_size_aborts (cfg : Cfg) (guid : List Nat) (parts : List Partinfo)
    (j : Nat) (p : Partinfo) (hskip : cfg.ignore_null = false)
    (hj : parts[j]? = some p) (hz : p.size = 0)
    (hfirst : ∀ k q, k < j → parts[k]? = some q → 0 < q.size) :
    gen_ptable cfg parts = .error j ∧ gen_gptable cfg guid parts = .error j := by
  have h := planLoop_first_zero cfg hskip parts j p 0 0 hj hz hfirst
  rw [Nat.zero_add] at h
  constructor
  · unfold gen_ptable; rw [h]
  · unfold gen_gptable; rw [h]

/-- Witness for `zero_size_aborts` on a single zero-size request. -/
theorem zero_size_aborts_witness :
    (cfgC1.ignore_null = false ∧
      ([Partinfo.mk 0 0x83])[0]? = some (Partinfo.mk 0 0x83) ∧
      (Partinfo.mk 0 0x83).size = 0) ∧
    (gen_ptable cfgC1 [⟨0, 0x83⟩] = .error 0 ∧
      gen_gptable cfgC1 guid0 [⟨0, 0x83⟩] = .error 0) :=
  ⟨⟨rfl, rfl, rfl⟩,
   zero_size_aborts cfgC1 guid0 [⟨0, 0x83⟩] 0 ⟨0, 0x83⟩ rfl rfl rfl
     (fun k _ hk _ => absurd hk (Nat.not_lt_zero k))⟩

/-- Witness for `gpt_crc_protocol` on the empty request list. -/
theorem gpt_crc_protocol_witness :
    gen_gptable cfgC1 guid0 [] = .ok gptOutNil ∧
    (gptOutNil.primary.crc32 = gpt_crc32 (zeroCrcField (gpthBytes gptOutNil.primary)) ∧
     gptOutNil.primary.entry_crc32 = gpt_crc32 (gptEntriesBytes gptOutNil.entries) ∧
     gptOutNil.backup.crc32 = gpt_crc32 (zeroCrcField (gpthBytes gptOutNil.backup)) ∧
     gptOutNil.backup.entry_crc32 = gpt_crc32 (gptEntriesBytes gptOutNil.entries)) :=
  ⟨rfl, gpt_crc_protocol cfgC1 guid0 [] gptOutNil rfl⟩

/-- Every entry produced by the planning loop carries an original request
index at least the loop's starting index. -/
theorem planLoop_idx_ge (cfg : Cfg) :
    ∀ (parts : List Partinfo) (sect i : Nat) (es : List PlanEntry) (fs : Nat),
      planLoop cfg parts sect i = .ok (es, fs) → ∀ e ∈ es, i ≤ e.idx := by
  intro parts
  induction parts with
  | nil =>
    intro sect i es fs h e he
    simp only [planLoop] at h
    cases h
    cases he
  | cons p rest ih =>
    intro sect i es fs h e he
    simp only [planLoop] at h
    by_cases hz : p.size = 0
    · rw [if_pos hz] at h
      by_cases hig : cfg.ignore_null = true
      · rw [if_pos hig] at h
        have := ih _ _ _ _ h e he
        omega
      · rw [if_neg hig] at h; cases h
    · rw [if_neg hz] at h
      cases hrec : planLoop cfg rest (planEnd cfg (planStart cfg sect) p.size) (i + 1) with
      | error e2 => rw [hrec] at h; cases h
      | ok r =>
        obtain ⟨es2, fs2⟩ := r
        rw [hrec] at h
        cases h
        cases he with
        | head => exact Nat.le_refl i
        | tail _ hmem =>
          have := ih _ _ _ _ hrec e hmem
          omega

/-- Looking up slot `i + j` in the plan: when request `j` was skipped
(zero size) nothing is found; when it was retained, exactly the entry
planned for request `j` is found. -/
theorem planLoop_find (cfg : Cfg) :
    ∀ (parts : List Partinfo) (j : Nat) (p : Partinfo) (sect i : Nat)
      (es : List PlanEntry) (fs : Nat),
      planLoop cfg parts sect i = .ok (es, fs) → parts[j]? = some p →
      (p.size = 0 → es.find? (fun e => e.idx = i + j) = none) ∧
      (0 < p.size → ∃ e, es.find? (fun e2 => e2.idx = i + j) = some e ∧
        e.idx = i + j ∧ e.part = p) := by
  intro parts
  induction parts with
  | nil => intro j p sect i es fs h hj; simp at hj
  | cons q rest ih =>
    intro j p sect i es fs h hj
    simp only [planLoop] at h
    by_cases hz : q.size = 0
    · rw [if_pos hz] at h
      by_cases hig : cfg.ignore_null = true
      · rw [if_pos hig] at h
        cases j with
        | zero =>
          simp only [List.getElem?_cons_zero] at hj
          cases hj
          constructor
          · intro _
            have hge := planLoop_idx_ge cfg rest sect (i + 1) es fs h
            apply List.find?_eq_none.mpr
            intro x hx
            have := hge x hx
            simp
            omega
          · intro hpos
            exact absurd hpos (by omega)
        | succ j2 =>
          have hih := ih j2 p sect (i + 1) es fs h (by simpa using hj)
          have heq : i + 1 + j2 = i + (j2 + 1) := by omega
          rw [heq] at hih
          exact hih
      · rw [if_neg hig] at h; cases h
    · rw [if_neg hz] at h
      cases hrec : planLoop cfg rest (planEnd cfg (planStart cfg sect) q.size) (i + 1) with
      | error e2 => rw [hrec] at h; cases h
      | ok r =>
        obtain ⟨es2, fs2⟩ := r
        rw [hrec] at h
        cases h
        cases j with
        | zero =>
          simp only [List.getElem?_cons_zero] at hj
          cases hj
          constructor
          · intro h0; exact absurd h0 hz
          · intro _
            refine ⟨⟨i, q, planStart cfg sect,
              planEnd cfg (planStart cfg sect) q.size - planStart cfg sect⟩, ?_, ?_, rfl⟩
            · rw [List.find?_cons_of_pos _ (by simp)]
            · simp
        | succ j2 =>
          have hih := ih j2 p _ (i + 1) _ _ hrec (by simpa using hj)
          have heq : i + 1 + j2 = i + (j2 + 1) := by omega
          rw [heq] at hih
          have hne : ¬ (i = i + (j2 + 1)) := by omega
          constructor
          · intro h0
            rw [List.find?_cons_of_neg _ (by simpa using hne)]
            exact hih.1 h0
          · intro hpos
            obtain ⟨e, he1, he2, he3⟩ := hih.2 hpos
            refine ⟨e, ?_, he2, he3⟩
            rw [List.find?_cons_of_neg _ (by simpa using hne)]
            exact he1

set_option maxRecDepth 8000 in
/-- C9 (counterexample): with skip-null-sized mode enabled, 128 GPT
requests of which the 128th (index 127) has size zero, the skipped slot's
entry is NOT left zero-filled: slot 127 always holds the synthetic
BIOS-boot entry, whose type GUID is non-zero. -/
theorem skip_slot127_not_zero :
    cfgSkip.ignore_null = true ∧
    partsRep[127]? = some ⟨0, 0x83⟩ ∧
    (gen_gptable cfgSkip guid0 partsRep).toOption.map (fun o => (o.entries 127).type)
      = some GPT_PARTITION_BIOS ∧
    GPT_PARTITION_BIOS ≠ zeroGpte.type :=
  ⟨rfl, by decide, rfl, by decide⟩

/-- C9 (amended): with skip-null-sized mode enabled, a zero-size request
is omitted entirely: in legacy mode its table slot stays zero (no
placeholder) and every retained request is encoded at the slot equal to
its original request index (no renumbering); in GPT mode the skipped
slot's entry is likewise left zero-filled and retained slots keep their
original index — except slot 127, which is always overwritten by the
synthetic BIOS-boot entry after the loop. -/
theorem skip_preserves_slots (cfg : Cfg) (guid : List Nat) (parts : List Partinfo)
    (tbl : Nat → Pte) (out : GptOut) (j : Nat) (p : Partinfo)
    (hskip : cfg.ignore_null = true)
    (hp : gen_ptable cfg parts = .ok tbl)
    (hg : gen_gptable cfg guid parts = .ok out)
    (hj : parts[j]? = some p) :
    (p.size = 0 → tbl j = zeroPte ∧ (j ≠ 127 → out.entries j = zeroGpte)) ∧
    (0 < p.size → ∃ e : PlanEntry, e.idx = j ∧ e.part = p ∧
      tbl j = mkPte cfg e ∧ (j ≠ 127 → out.entries j = mkGpte cfg guid e)) := by
  unfold gen_ptable at hp
  unfold gen_gptable at hg
  cases hpl : planLoop cfg parts 0 0 with
  | error i => rw [hpl] at hp; cases hp
  | ok r =>
    obtain ⟨es, fs⟩ := r
    rw [hpl] at hp hg
    cases hp
    cases hg
    have hf := planLoop_find cfg parts j p 0 0 es fs hpl hj
    simp only [Nat.zero_add] at hf
    constructor
    · intro h0
      have hn := hf.1 h0
      constructor
      · show pteTable cfg es j = zeroPte
        unfold pteTable
        rw [hn]
      · intro h127
        show (mkGptOut cfg guid es fs).entries j = zeroGpte
        simp only [mkGptOut]
        show gpteTable cfg guid es j = zeroGpte
        unfold gpteTable
        rw [if_neg h127, hn]
    · intro hpos
      obtain ⟨e, he1, he2, he3⟩ := hf.2 hpos
      refine ⟨e, he2, he3, ?_, ?_⟩
      · show pteTable cfg es j = mkPte cfg e
        unfold pteTable
        rw [he1]
      · intro h127
        show (mkGptOut cfg guid es fs).entries j = mkGpte cfg guid e
        simp only [mkGptOut]
        show gpteTable cfg guid es j = mkGpte cfg guid e
        unfold gpteTable
        rw [if_neg h127, he1]

/-- Witness for `skip_preserves_slots`: `[0 KB, 1 KB]` with skip-mode on —
the zero-size slot 0 and the retained slot 1 of both encoders. -/
theorem skip_preserves_slots_witness :
    (cfgSkip2.ignore_null = true ∧
      gen_ptable cfgSkip2 [⟨0, 0x83⟩, ⟨1, 0x83⟩] = .ok (pteTable cfgSkip2 planSkip) ∧
      gen_gptable cfgSkip2 guid0 [⟨0, 0x83⟩, ⟨1, 0x83⟩]
        = .ok (mkGptOut cfgSkip2 guid0 planSkip 128) ∧
      ([Partinfo.mk 0 0x83, Partinfo.mk 1 0x83])[0]? = some (Partinfo.mk 0 0x83)) ∧
    (((Partinfo.mk 0 0x83).size = 0 →
        pteTable cfgSkip2 planSkip 0 = zeroPte ∧
        ((0 : Nat) ≠ 127 → (mkGptOut cfgSkip2 guid0 planSkip 128).entries 0 = zeroGpte)) ∧
      (0 < (Partinfo.mk 0 0x83).size → ∃ e : PlanEntry, e.idx = 0 ∧
        e.part = Partinfo.mk 0 0x83 ∧
        pteTable cfgSkip2 planSkip 0 = mkPte cfgSkip2 e ∧
        ((0 : Nat) ≠ 127 →
          (mkGptOut cfgSkip2 guid0 planSkip 128).entries 0 = mkGpte cfgSkip2 guid0 e))) :=
  ⟨⟨rfl, rfl, rfl, rfl⟩,
   skip_preserves_slots cfgSkip2 guid0 [⟨0, 0x83⟩, ⟨1, 0x83⟩]
     (pteTable cfgSkip2 planSkip) (mkGptOut cfgSkip2 guid0 planSkip 128)
     0 ⟨0, 0x83⟩ rfl rfl rfl rfl⟩

/-- C10: in both encoders the bootable/ESP comparison uses the 1-based
ORIGINAL request index (`i + 1 == active`), not a count of retained
partitions: for every retained request, the legacy bootable flag is
`0x80` exactly when its original index (plus 1) equals `active`, and the
GPT type is ESP exactly when its type byte is `0xEF` or its original
index (plus 1) equals `active` — so skipping an earlier zero-size
request never shifts the selection to a different retained request. -/
theorem active_uses_original_index (cfg : Cfg) (guid : List Nat) (parts : List Partinfo)
    (tbl : Nat → Pte) (out : GptOut) (i : Nat) (p : Partinfo)
    (hp : gen_ptable cfg parts = .ok tbl)
    (hg : gen_gptable cfg guid parts = .ok out)
    (hi : parts[i]? = some p) (hpos : 0 < p.size) :
    (tbl i).active = (if i + 1 = cfg.active then 0x80 else 0) ∧
    (i ≠ 127 → (out.entries i).type =
      (if p.type = 0xEF ∨ i + 1 = cfg.active
       then GPT_PARTITION_ESP else GPT_PARTITION_DATA)) := by
  unfold gen_ptable at hp
  unfold gen_gptable at hg
  cases hpl : planLoop cfg parts 0 0 with
  | error e2 => rw [hpl] at hp; cases hp
  | ok r =>
    obtain ⟨es, fs⟩ := r
    rw [hpl] at hp hg
    cases hp
    cases hg
    have hf := planLoop_find cfg parts i p 0 0 es fs hpl hi
    simp only [Nat.zero_add] at hf
    obtain ⟨e, he1, he2, he3⟩ := hf.2 hpos
    constructor
    · show (pteTable cfg es i).active = _
      unfold pteTable
      rw [he1]
      simp only [mkPte]
      rw [he2]
    · intro h127
      show ((mkGptOut cfg guid es fs).entries i).type = _
      simp only [mkGptOut]
      show (gpteTable cfg guid es i).type = _
      unfold gpteTable
      rw [if_neg h127, he1]
      simp only [mkGpte]
      rw [he2, he3]

/-- Witness for `active_uses_original_index`: skip-mode on, active slot 2,
requests `[0 KB, 1 KB]`; the retained request at original index 1 gets
the bootable flag and the ESP type. -/
theorem active_uses_original_index_witness :
    (gen_ptable cfgSkip2 [⟨0, 0x83⟩, ⟨1, 0x83⟩] = .ok (pteTable cfgSkip2 planSkip) ∧
      gen_gptable cfgSkip2 guid0 [⟨0, 0x83⟩, ⟨1, 0x83⟩]
        = .ok (mkGptOut cfgSkip2 guid0 planSkip 128) ∧
      ([Partinfo.mk 0 0x83, Partinfo.mk 1 0x83])[1]? = some (Partinfo.mk 1 0x83) ∧
      0 < (Partinfo.mk 1 0x83).size) ∧
    ((pteTable cfgSkip2 planSkip 1).active = (if 1 + 1 = cfgSkip2.active then 0x80 else 0) ∧
      ((1 : Nat) ≠ 127 → ((mkGptOut cfgSkip2 guid0 planSkip 128).entries 1).type =
        (if (Partinfo.mk 1 0x83).type = 0xEF ∨ 1 + 1 = cfgSkip2.active
         then GPT_PARTITION_ESP else GPT_PARTITION_DATA))) :=
  ⟨⟨rfl, rfl, rfl, by decide⟩,
   active_uses_original_index cfgSkip2 guid0 [⟨0, 0x83⟩, ⟨1, 0x83⟩]
     (pteTable cfgSkip2 planSkip) (mkGptOut cfgSkip2 guid0 planSkip 128)
     1 ⟨1, 0x83⟩ rfl rfl rfl (by decide)⟩


/-- No hexadecimal digit character is a hyphen. -/
theorem hexChars_ne_hyphen : ∀ c ∈ hexChars, c ≠ '-' := by decide

/-- Uppercase `%02X` printing of the `strtol` value of a 2-character hex
group recovers the two characters, uppercased. -/
theorem hexPair_toUpper : ∀ c1 ∈ hexChars, ∀ c2 ∈ hexChars,
    hexPairUpper (byteOfChars c1 c2) = [c1.toUpper, c2.toUpper] := by decide

/-- `toUpper` fixes the hyphen. -/
theorem toUpper_hyphen : Char.toUpper '-' = '-' := by decide

/-- One parse step on a group not preceded by a hyphen. -/
theorem parseLoop_cons (n : Nat) (c1 c2 : Char) (rest : List Char) (h : c1 ≠ '-') :
    parseLoop (n + 1) (c1 :: c2 :: rest)
      = (parseLoop n rest).map (fun r => byteOfChars c1 c2 :: r) := by
  simp [parseLoop, h]

/-- One parse step on a group preceded by a single hyphen. -/
theorem parseLoop_hyphen (n : Nat) (c1 c2 : Char) (rest : List Char) :
    parseLoop (n + 1) ('-' :: c1 :: c2 :: rest)
      = (parseLoop n rest).map (fun r => byteOfChars c1 c2 :: r) := by
  simp [parseLoop]

/-- C6: for every canonical 36-character hyphenated hex GUID string,
parsing it to the 16-byte mixed-endian on-disk form (first 4 bytes
byte-swapped, next two 2-byte groups byte-swapped, last 8 bytes in order)
and re-serializing the bytes back to a string yields the original string
up to hex-digit case, the output being canonical uppercase. -/
theorem guid_roundtrip
    (d0 d1 d2 d3 d4 d5 d6 d7 : Char)
    (d8 d9 d10 d11 d12 d13 d14 d15 : Char)
    (d16 d17 d18 d19 d20 d21 d22 d23 : Char)
    (d24 d25 d26 d27 d28 d29 d30 d31 : Char)
    (h : ∀ c ∈ [d0, d1, d2, d3, d4, d5, d6, d7, d8, d9, d10, d11, d12, d13, d14, d15, d16, d17, d18, d19, d20, d21, d22, d23, d24, d25, d26, d27, d28, d29, d30, d31], c ∈ hexChars) :
    (guid_parse [d0, d1, d2, d3, d4, d5, d6, d7, '-', d8, d9, d10, d11, '-', d12, d13, d14, d15, '-', d16, d17, d18, d19, '-', d20, d21, d22, d23, d24, d25, d26, d27, d28, d29, d30, d31]).map guid_print
      = some (List.map Char.toUpper [d0, d1, d2, d3, d4, d5, d6, d7, '-', d8, d9, d10, d11, '-', d12, d13, d14, d15, '-', d16, d17, d18, d19, '-', d20, d21, d22, d23, d24, d25, d26, d27, d28, d29, d30, d31]) := by
  have h0 : d0 ∈ hexChars := h d0 (by simp)
  have h1 : d1 ∈ hexChars := h d1 (by simp)
  have h2 : d2 ∈ hexChars := h d2 (by simp)
  have h3 : d3 ∈ hexChars := h d3 (by simp)
  have h4 : d4 ∈ hexChars := h d4 (by simp)
  have h5 : d5 ∈ hexChars := h d5 (by simp)
  have h6 : d6 ∈ hexChars := h d6 (by simp)
  have h7 : d7 ∈ hexChars := h d7 (by simp)
  have h8 : d8 ∈ hexChars := h d8 (by simp)
  have h9 : d9 ∈ hexChars := h d9 (by simp)
  have h10 : d10 ∈ hexChars := h d10 (by simp)
  have h11 : d11 ∈ hexChars := h d11 (by simp)
  have h12 : d12 ∈ hexChars := h d12 (by simp)
  have h13 : d13 ∈ hexChars := h d13 (by simp)
  have h14 : d14 ∈ hexChars := h d14 (by simp)
  have h15 : d15 ∈ hexChars := h d15 (by simp)
  have h16 : d16 ∈ hexChars := h d16 (by simp)
  have h17 : d17 ∈ hexChars := h d17 (by simp)
  have h18 : d18 ∈ hexChars := h d18 (by simp)
  have h19 : d19 ∈ hexChars := h d19 (by simp)
  have h20 : d20 ∈ hexChars := h d20 (by simp)
  have h21 : d21 ∈ hexChars := h d21 (by simp)
  have h22 : d22 ∈ hexChars := h d22 (by simp)
  have h23 : d23 ∈ hexChars := h d23 (by simp)
  have h24 : d24 ∈ hexChars := h d24 (by simp)
  have h25 : d25 ∈ hexChars := h d25 (by simp)
  have h26 : d26 ∈ hexChars := h d26 (by simp)
  have h27 : d27 ∈ hexChars := h d27 (by simp)
  have h28 : d28 ∈ hexChars := h d28 (by simp)
  have h29 : d29 ∈ hexChars := h d29 (by simp)
  have h30 : d30 ∈ hexChars := h d30 (by simp)
  have h31 : d31 ∈ hexChars := h d31 (by simp)
  have n0 : d0 ≠ '-' := hexChars_ne_hyphen d0 h0
  have n2 : d2 ≠ '-' := hexChars_ne_hyphen d2 h2
  have n4 : d4 ≠ '-' := hexChars_ne_hyphen d4 h4
  have n6 : d6 ≠ '-' := hexChars_ne_hyphen d6 h6
  have n10 : d10 ≠ '-' := hexChars_ne_hyphen d10 h10
  have n14 : d14 ≠ '-' := hexChars_ne_hyphen d14 h14
  have n18 : d18 ≠ '-' := hexChars_ne_hyphen d18 h18
  have n22 : d22 ≠ '-' := hexChars_ne_hyphen d22 h22
  have n24 : d24 ≠ '-' := hexChars_ne_hyphen d24 h24
  have n26 : d26 ≠ '-' := hexChars_ne_hyphen d26 h26
  have n28 : d28 ≠ '-' := hexChars_ne_hyphen d28 h28
  have n30 : d30 ≠ '-' := hexChars_ne_hyphen d30 h30
  unfold guid_parse
  rw [if_neg (by simp)]
  rw [show (16 : Nat) = 15 + 1 from rfl]
  rw [parseLoop_cons 15 d0 d1 _ n0]
  rw [show (15 : Nat) = 14 + 1 from rfl]
  rw [parseLoop_cons 14 d2 d3 _ n2]
  rw [show (14 : Nat) = 13 + 1 from rfl]
  rw [parseLoop_cons 13 d4 d5 _ n4]
  rw [show (13 : Nat) = 12 + 1 from rfl]
  rw [parseLoop_cons 12 d6 d7 _ n6]
  rw [show (12 : Nat) = 11 + 1 from rfl]
  rw [parseLoop_hyphen 11 d8 d9]
  rw [show (11 : Nat) = 10 + 1 from rfl]
  rw [parseLoop_cons 10 d10 d11 _ n10]
  rw [show (10 : Nat) = 9 + 1 from rfl]
  rw [parseLoop_hyphen 9 d12 d13]
  rw [show (9 : Nat) = 8 + 1 from rfl]
  rw [parseLoop_cons 8 d14 d15 _ n14]
  rw [show (8 : Nat) = 7 + 1 from rfl]
  rw [parseLoop_hyphen 7 d16 d17]
  rw [show (7 : Nat) = 6 + 1 from rfl]
  rw [parseLoop_cons 6 d18 d19 _ n18]
  rw [show (6 : Nat) = 5 + 1 from rfl]
  rw [parseLoop_hyphen 5 d20 d21]
  rw [show (5 : Nat) = 4 + 1 from rfl]
  rw [parseLoop_cons 4 d22 d23 _ n22]
  rw [show (4 : Nat) = 3 + 1 from rfl]
  rw [parseLoop_cons 3 d24 d25 _ n24]
  rw [show (3 : Nat) = 2 + 1 from rfl]
  rw [parseLoop_cons 2 d26 d27 _ n26]
  rw [show (2 : Nat) = 1 + 1 from rfl]
  rw [parseLoop_cons 1 d28 d29 _ n28]
  rw [show (1 : Nat) = 0 + 1 from rfl]
  rw [parseLoop_cons 0 d30 d31 _ n30]
  simp only [parseLoop, Option.map_some']
  simp only [byteswapGuid, guid_print]
  rw [hexPair_toUpper d0 h0 d1 h1]
  rw [hexPair_toUpper d2 h2 d3 h3]
  rw [hexPair_toUpper d4 h4 d5 h5]
  rw [hexPair_toUpper d6 h6 d7 h7]
  rw [hexPair_toUpper d8 h8 d9 h9]
  rw [hexPair_toUpper d10 h10 d11 h11]
  rw [hexPair_toUpper d12 h12 d13 h13]
  rw [hexPair_toUpper d14 h14 d15 h15]
  rw [hexPair_toUpper d16 h16 d17 h17]
  rw [hexPair_toUpper d18 h18 d19 h19]
  rw [hexPair_toUpper d20 h20 d21 h21]
  rw [hexPair_toUpper d22 h22 d23 h23]
  rw [hexPair_toUpper d24 h24 d25 h25]
  rw [hexPair_toUpper d26 h26 d27 h27]
  rw [hexPair_toUpper d28 h28 d29 h29]
  rw [hexPair_toUpper d30 h30 d31 h31]
  simp [toUpper_hyphen]

/-- Witness for `guid_roundtrip` on a concrete mixed-case GUID string. -/
theorem guid_roundtrip_witness :
    (∀ c ∈ ['f', '0', 'e', '1', 'd', '2', 'c', '3', 'b', '4', 'a', '5', '9', '6', '8', '7', 'F', 'E', '0', 'D', '1', 'C', '2', 'B', '3', 'A', '4', '9', '5', '8', '6', '7'], c ∈ hexChars) ∧
    (guid_parse ['f', '0', 'e', '1', 'd', '2', 'c', '3', '-', 'b', '4', 'a', '5', '-', '9', '6', '8', '7', '-', 'F', 'E', '0', 'D', '-', '1', 'C', '2', 'B', '3', 'A', '4', '9', '5', '8', '6', '7']).map guid_print
      = some (List.map Char.toUpper ['f', '0', 'e', '1', 'd', '2', 'c', '3', '-', 'b', '4', 'a', '5', '-', '9', '6', '8', '7', '-', 'F', 'E', '0', 'D', '-', '1', 'C', '2', 'B', '3', 'A', '4', '9', '5', '8', '6', '7']) :=
  ⟨by decide, guid_roundtrip 'f' '0' 'e' '1' 'd' '2' 'c' '3' 'b' '4' 'a' '5' '9' '6' '8' '7' 'F' 'E' '0' 'D' '1' 'C' '2' 'B' '3' 'A' '4' '9' '5' '8' '6' '7' (by decide)⟩

end Ptgen
